import Mathlib

/-!
# C-Web-Server: `src/server.c`

A shallow embedding of the request handling code of `server.c`
(`send_response`, `get_d20`, `resp_404`, `get_file`, `handle_http_request`)
and theorems about it.

Conventions of the embedding.

* A byte is a `Char`; a byte sequence is a `List Char`.
* A `char *` argument that the code reads as a C string (status line, content
  type, paths, tokens) is modelled by its text: the bytes before the
  terminating NUL.
* A `void *` argument (response body, file data, cached content) is modelled
  by the bytes of the object it points to. Reading it as a C string stops at
  its first NUL; when it holds no NUL the read runs past the object.
* Behaviour that C leaves undefined (a write past the end of a buffer, a read
  past the end of an object, a NULL pointer handed to `strcmp`) is an explicit
  `Fault`.
* The functions of `file.h`, `mime.h` and `cache.h` are not part of
  `server.c`; they are the fields of `Collab`. Every call of them, every call
  of `send_response` and every `send` is recorded in a list of `Call`s.
* A handler runs `send_response` where the code does: when the response cannot
  be built the handler ends there, with the fault.
* The array `request` is not initialised by the code: what it held before
  `recv` is an input of `handle_http_request`.
* `printf` logging is not modelled.
-/

namespace CWebServer

/-! ## C strings and buffers -/

/-- The NUL byte that terminates a C string. -/
def NUL : Char := Char.ofNat 0

/-- Carriage return, line feed. -/
def CRLF : List Char := [Char.ofNat 13, Char.ofNat 10]

/-- Text of the C string at the start of a buffer: the bytes before the first NUL. -/
def c_str (buf : List Char) : List Char :=
  buf.takeWhile (fun b => b != NUL)

/-- Undefined behaviour the handlers can run into. -/
inductive Fault where
  | null_pointer
  | buffer_overflow
  | read_past_end
  deriving DecidableEq, Repr

/-- Reading a C string out of an object: `none` when the object holds no NUL,
so that the read leaves the object. -/
def read_str (buf : List Char) : Option (List Char) :=
  if NUL ∈ buf then some (c_str buf) else none

/-- The value of `strlen(buf)`. -/
def strlen (buf : List Char) : Option Nat :=
  (read_str buf).map List.length

/-- Appending `src` and its NUL to the C string `dst` held in a buffer of `cap`
bytes, as `strcat(dst, src)` and `sprintf(dst + strlen(dst), ...)` do. -/
def append_str (cap : Nat) (dst src : List Char) : Except Fault (List Char) :=
  if dst.length + src.length + 1 ≤ cap then .ok (dst ++ src) else .error .buffer_overflow

/-- Output of the `%d` conversion. -/
def fmt_d (n : Int) : List Char := (toString n).toList

/-- The call `sprintf(buf, "%d", n)` for a buffer of `cap` bytes: the bytes written,
`none` when they do not fit. -/
def sprintf_d (cap : Nat) (n : Int) : Option (List Char) :=
  let out := fmt_d n ++ [NUL]
  if out.length ≤ cap then some out else none

/-- The call `snprintf(buf, size, "%s%s", a, b)`: at most `size - 1` bytes of text. -/
def snprintf_ss (size : Nat) (a b : List Char) : List Char :=
  (c_str a ++ c_str b).take (size - 1)

/-! ## Constants of `server.c` -/

def SERVER_FILES : List Char := "./serverfiles".toList

def max_response_size : Nat := 262144

def request_buffer_size : Nat := 65536

def HTTP_200 : List Char := "HTTP/1.1 200 OK".toList

def HTTP_404 : List Char := "HTTP/1.1 404 NOT FOUND".toList

def TEXT_PLAIN : List Char := "text/plain".toList

def GET : List Char := "GET".toList

def POST : List Char := "POST".toList

def D20 : List Char := "/d20".toList

/-! ## Collaborators -/

/-- The fields of `struct file_data` that `server.c` reads. -/
structure file_data where
  size : Int
  data : List Char
  deriving DecidableEq, Repr

/-- The fields of `struct cache_entry` that `server.c` reads. -/
structure cache_entry where
  content_type : List Char
  content_length : Int
  content : List Char
  deriving DecidableEq, Repr

/-- The functions `server.c` calls from `cache.h`, `file.h` and `mime.h`, over a
cache state `σ`. `cache_get` may change the cache (recency), so it returns the
new state as well. -/
structure Collab (σ : Type) where
  cache_get : σ → List Char → Option cache_entry × σ
  cache_put : σ → List Char → List Char → List Char → Int → σ
  file_load : List Char → Option file_data
  mime_type_get : List Char → List Char

/-- The text `strftime` leaves in the 64 bytes of `s`: a C string of at most 63
bytes. -/
structure date_text where
  text : List Char
  short : text.length ≤ 63
  no_nul : c_str text = text

/-- One call made while a request is handled, with its arguments; `send` is the
call `send_response` makes once the response is built, with the bytes it
hands over. -/
inductive Call where
  | cache_get (path : List Char)
  | cache_put (path content_type content : List Char) (content_length : Int)
  | file_load (path : List Char)
  | mime_type_get (path : List Char)
  | send_response (header content_type body : List Char) (content_length : Int)
  | send (bytes : List Char)
  deriving DecidableEq, Repr

/-- How a handler ends: it returns (with the cache as it then is), the process
exits, or the behaviour is undefined. Each carries the calls made so far. -/
inductive Result (σ : Type) where
  | returned (cache : σ) (calls : List Call)
  | exited (status : Nat) (calls : List Call)
  | undefined (fault : Fault) (calls : List Call)
  deriving DecidableEq, Repr

/-- The calls a result carries. -/
def Result.calls {σ : Type} : Result σ → List Call
  | .returned _ cs => cs
  | .exited _ cs => cs
  | .undefined _ cs => cs

/-! ## `send_response` -/

/-- The bytes `send_response` passes to `send`, for the text `date` that
`strftime` produced. -/
def send_response (date header content_type body : List Char) (content_length : Int) :
    Except Fault (List Char) := do
  let cap := max_response_size
  let response ← append_str cap [] (c_str header)
  let response ← append_str cap response CRLF
  let response ← append_str cap response ("Date: ".toList ++ c_str date ++ CRLF)
  let response ← append_str cap response ("Connection: close".toList ++ CRLF)
  let response ← append_str cap response
    ("Content-Length: ".toList ++ fmt_d content_length ++ CRLF)
  let response ← append_str cap response
    ("Content-Type: ".toList ++ c_str content_type ++ CRLF)
  let response ← append_str cap response CRLF
  if content_length > 0 then
    match read_str body with
    | none => .error .read_past_end
    | some text =>
      let response ← append_str cap response text
      append_str cap response (CRLF ++ CRLF)
  else
    .ok response

/-! ## `get_d20` -/

/-- The handler `get_d20`, for the value `rand` that `rand()` returned and the
date text of the moment. -/
def get_d20 {σ : Type} (date : date_text) (cache : σ) (rand : Nat) : Result σ :=
  let r : Int := (rand : Int) % 21
  match sprintf_d 2 r with
  | none => .undefined .buffer_overflow []
  | some num =>
    match strlen num with
    | none => .undefined .read_past_end []
    | some len =>
      match send_response date.text HTTP_200 TEXT_PLAIN num len with
      | .error fault => .undefined fault [.send_response HTTP_200 TEXT_PLAIN num len]
      | .ok bytes => .returned cache [.send_response HTTP_200 TEXT_PLAIN num len, .send bytes]

/-! ## `resp_404` -/

/-- Path of the not-found document, as `resp_404` builds it. -/
def path_404 : List Char := snprintf_ss 4096 SERVER_FILES "/404.html".toList

/-- The handler `resp_404`; `before` holds the calls already made. -/
def resp_404 {σ : Type} (w : Collab σ) (date : date_text) (cache : σ) (before : List Call) :
    Result σ :=
  let filepath := path_404
  match w.file_load filepath with
  | none => .exited 3 (before ++ [.file_load filepath])
  | some filedata =>
    let mime_type := w.mime_type_get filepath
    match send_response date.text HTTP_404 mime_type filedata.data filedata.size with
    | .error fault =>
      .undefined fault (before ++ [.file_load filepath, .mime_type_get filepath,
        .send_response HTTP_404 mime_type filedata.data filedata.size])
    | .ok bytes =>
      .returned cache (before ++ [.file_load filepath, .mime_type_get filepath,
        .send_response HTTP_404 mime_type filedata.data filedata.size, .send bytes])

/-! ## `get_file` -/

/-- The path `get_file` builds from the request path: cache key and file path. -/
def file_path (request_path : List Char) : List Char :=
  snprintf_ss 4096 SERVER_FILES request_path

/-- The handler `get_file`. -/
def get_file {σ : Type} (w : Collab σ) (date : date_text) (cache : σ)
    (request_path : List Char) : Result σ :=
  let filepath := file_path request_path
  match w.cache_get cache filepath with
  | (some cacheentry, cache1) =>
    match send_response date.text HTTP_200 cacheentry.content_type cacheentry.content
        cacheentry.content_length with
    | .error fault =>
      .undefined fault [.cache_get filepath,
        .send_response HTTP_200 cacheentry.content_type cacheentry.content
          cacheentry.content_length]
    | .ok bytes =>
      .returned cache1 [.cache_get filepath,
        .send_response HTTP_200 cacheentry.content_type cacheentry.content
          cacheentry.content_length,
        .send bytes]
  | (none, cache1) =>
    match w.file_load filepath with
    | none => resp_404 w date cache1 [.cache_get filepath, .file_load filepath]
    | some filedata =>
      let mime_type := w.mime_type_get filepath
      match send_response date.text HTTP_200 mime_type filedata.data filedata.size with
      | .error fault =>
        .undefined fault [.cache_get filepath, .file_load filepath,
          .mime_type_get filepath,
          .send_response HTTP_200 mime_type filedata.data filedata.size]
      | .ok bytes =>
        .returned (w.cache_put cache1 filepath mime_type filedata.data filedata.size)
          [.cache_get filepath, .file_load filepath, .mime_type_get filepath,
           .send_response HTTP_200 mime_type filedata.data filedata.size,
           .send bytes,
           .cache_put filepath mime_type filedata.data filedata.size]

/-! ## `handle_http_request` -/

/-- One call of `strtok` with the delimiter `" "`, on the bytes from the place
where it starts to the end of the array: the token (`none` for NULL) and the
bytes from the place where the next call starts. Leading spaces are skipped;
the token ends at the next space, which is overwritten, or at the NUL. When the
array ends before a NUL or a delimiter is found, the scan leaves the array. -/
def strtok (s : List Char) : Except Fault (Option (List Char) × List Char) :=
  match s.dropWhile (fun b => b == ' ') with
  | [] => .error .read_past_end
  | b :: bs =>
    if b = NUL then .ok (none, b :: bs)
    else
      let token := (b :: bs).takeWhile (fun x => x != ' ' && x != NUL)
      match (b :: bs).dropWhile (fun x => x != ' ' && x != NUL) with
      | [] => .error .read_past_end
      | d :: rest => if d = NUL then .ok (some token, d :: rest) else .ok (some token, rest)

/-- The array `request` after `recv`: the bytes received, at most
`request_buffer_size - 1`, over what the array held before. -/
def request_after_recv (buffer bytes : List Char) : List Char :=
  let got := bytes.take (request_buffer_size - 1)
  (got ++ buffer.drop got.length).take request_buffer_size

/-- The handler `handle_http_request`. `buffer` is what the array `request`
holds when the handler starts. `recvd` is what `recv` delivered: `none` for a
negative return value, else the bytes received. `rand` is the value the next
`rand()` returns, `date` the date text of the moment. -/
def handle_http_request {σ : Type} (w : Collab σ) (date : date_text) (cache : σ)
    (rand : Nat) (buffer : List Char) (recvd : Option (List Char)) : Result σ :=
  match recvd with
  | none => .returned cache []
  | some bytes =>
    match strtok (request_after_recv buffer bytes) with
    | .error fault => .undefined fault []
    | .ok (verb, saved) =>
      match strtok saved with
      | .error fault => .undefined fault []
      | .ok (path, _) =>
        match verb with
        | none => .undefined .null_pointer []
        | some verb =>
          if verb = GET then
            match path with
            | none => .undefined .null_pointer []
            | some path =>
              if path = D20 then get_d20 date cache rand
              else get_file w date cache path
          else if verb = POST then .returned cache []
          else .returned cache []

/-! ## Calls of one kind -/

/-- The `send_response` calls in a list of calls, in order. -/
def responses (calls : List Call) : List Call :=
  calls.filter (fun c => match c with | .send_response _ _ _ _ => true | _ => false)

/-- The byte sequences handed to `send` in a list of calls, in order. -/
def sent (calls : List Call) : List (List Char) :=
  calls.filterMap (fun c => match c with | .send bytes => some bytes | _ => none)

/-! ## The wire format of the specification -/

/-- The response bytes as the specification lays them out, for a body of
`content_length` bytes: status line, the four headers, a blank line, and for a
non-empty body the body bytes and two line ends. -/
def wire_format (date header content_type body : List Char) (content_length : Nat) :
    List Char :=
  header ++ CRLF
    ++ "Date: ".toList ++ date ++ CRLF
    ++ "Connection: close".toList ++ CRLF
    ++ "Content-Length: ".toList ++ fmt_d content_length ++ CRLF
    ++ "Content-Type: ".toList ++ content_type ++ CRLF
    ++ CRLF
    ++ (if content_length > 0 then body.take content_length ++ CRLF ++ CRLF else [])

/-! ## Locations named by a path -/

/-- Splitting a path at every `/`; `cur` holds the bytes of the segment being
read, last byte first. -/
def segments_from (cur : List Char) : List Char → List (List Char)
  | [] => [cur.reverse]
  | b :: bs =>
    if b = '/' then cur.reverse :: segments_from [] bs
    else segments_from (b :: cur) bs

/-- The segments of a path. -/
def segments (path : List Char) : List (List Char) :=
  segments_from [] path

/-- Resolving the segments of a relative path from the directory `dir` (names,
innermost first): an empty segment and `.` stay, `..` goes up one directory,
any other name goes down into it. `none` when `..` goes above the start. -/
def resolve : List (List Char) → List (List Char) → Option (List (List Char))
  | dir, [] => some dir
  | dir, seg :: segs =>
    if seg = [] ∨ seg = ['.'] then resolve dir segs
    else if seg = ['.', '.'] then
      match dir with
      | [] => none
      | _ :: up => resolve up segs
    else resolve (seg :: dir) segs

/-- The location a relative path names: directory names, outermost first. -/
def location (path : List Char) : Option (List (List Char)) :=
  (resolve [] (segments path)).map List.reverse

/-- Whether a path, with its `.` and `..` segments resolved, names a location
inside the content root `SERVER_FILES`. -/
def inside_root (path : List Char) : Bool :=
  match location SERVER_FILES, location path with
  | some root, some loc => loc.take root.length == root
  | _, _ => false

/-! ## A cache store and a small site -/

/-- Modelled from the spec: the Cache Store of `cache.h`, which `server.c` only
calls. Entries are kept most recently used first; `max_size = 0` switches
eviction off. -/
structure cache where
  max_size : Nat
  entries : List (List Char × cache_entry)
  deriving DecidableEq, Repr

/-- Modelled from the spec: `cache_create` of `cache.h`; the bucket count has no
effect on what is stored. -/
def cache_create (_hashsize max_size : Nat) : cache :=
  { max_size := max_size, entries := [] }

/-- Modelled from the spec: `cache_get` of `cache.h`. A hit moves the entry to
the front; a miss changes nothing. -/
def cache_get (c : cache) (path : List Char) : Option cache_entry × cache :=
  match c.entries.find? (fun e => e.1 = path) with
  | none => (none, c)
  | some e => (some e.2, { c with entries := e :: c.entries.filter (fun x => x.1 ≠ path) })

/-- Modelled from the spec: `cache_put` of `cache.h`. An existing key is replaced
and moved to the front; a new key evicts the least recently used entry first
when the store is bounded and full. -/
def cache_put (c : cache) (path content_type content : List Char) (content_length : Int) :
    cache :=
  let e : List Char × cache_entry := (path, ⟨content_type, content_length, content⟩)
  if c.entries.any (fun x => x.1 = path) then
    { c with entries := e :: c.entries.filter (fun x => x.1 ≠ path) }
  else if c.max_size > 0 ∧ c.entries.length ≥ c.max_size then
    { c with entries := e :: c.entries.dropLast }
  else
    { c with entries := e :: c.entries }

/-- A content root holding `/index.html` and the not-found document, served
through the cache store above. -/
def site : Collab cache where
  cache_get := cache_get
  cache_put := cache_put
  file_load := fun path =>
    if path = "./serverfiles/index.html".toList then
      some ⟨5, "hello".toList ++ [NUL]⟩
    else if path = "./serverfiles/404.html".toList then
      some ⟨9, "not found".toList ++ [NUL]⟩
    else none
  mime_type_get := fun path =>
    if path.reverse.take 5 = ".html".toList.reverse then "text/html".toList
    else "application/octet-stream".toList

/-- The same content root without the not-found document. -/
def site_without_404 : Collab cache :=
  { site with
    file_load := fun path =>
      if path = "./serverfiles/index.html".toList then
        some ⟨5, "hello".toList ++ [NUL]⟩
      else none }

/-- A date text as `strftime` gives it for `%c`. -/
def noon : date_text :=
  ⟨"Sun Nov  1 12:00:00 2026".toList, by decide, by decide⟩

/-- A request buffer that holds zero bytes only. -/
def zero_buffer : List Char := List.replicate request_buffer_size NUL

/-- Modelled from the spec: a `cache_put` that copies `content_length` bytes of
the content into storage of its own and keeps nothing after them. -/
def cache_put_copy (c : cache) (path content_type content : List Char)
    (content_length : Int) : cache :=
  cache_put c path content_type (content.take content_length.toNat) content_length

/-- The content root of `site` behind a cache store that copies. -/
def site_copy : Collab cache :=
  { site with cache_put := cache_put_copy }

/-! # Theorems -/

/-! ## `send_response` -/

set_option maxRecDepth 8000 in
/-- C3: for the 3-byte body `A`, NUL, `B` the bytes handed to `send` announce
`Content-Length: 3` and carry the body up to its first NUL only; they differ
from the wire format of the specification. -/
theorem send_response_cuts_body_at_nul :
    send_response "Sun Nov  1 12:00:00 2026".toList HTTP_200
        "application/octet-stream".toList ['A', NUL, 'B'] 3
      = .ok ("HTTP/1.1 200 OK\r\nDate: Sun Nov  1 12:00:00 2026\r\nConnection: close\r\nContent-Length: 3\r\nContent-Type: application/octet-stream\r\n\r\nA\r\n\r\n".toList)
    ∧ wire_format "Sun Nov  1 12:00:00 2026".toList HTTP_200
        "application/octet-stream".toList ['A', NUL, 'B'] 3
      = "HTTP/1.1 200 OK\r\nDate: Sun Nov  1 12:00:00 2026\r\nConnection: close\r\nContent-Length: 3\r\nContent-Type: application/octet-stream\r\n\r\nA\x00B\r\n\r\n".toList
    ∧ wire_format "Sun Nov  1 12:00:00 2026".toList HTTP_200
        "application/octet-stream".toList ['A', NUL, 'B'] 3
      ≠ "HTTP/1.1 200 OK\r\nDate: Sun Nov  1 12:00:00 2026\r\nConnection: close\r\nContent-Length: 3\r\nContent-Type: application/octet-stream\r\n\r\nA\r\n\r\n".toList := by
  refine ⟨rfl, rfl, ?_⟩
  decide

/-- A step of `send_response` that fits in the buffer appends its text. -/
theorem append_str_bind (cap : Nat) (dst src : List Char) (f : List Char → Except Fault (List Char))
    (h : dst.length + src.length + 1 ≤ cap) : (append_str cap dst src >>= f) = f (dst ++ src) := by
  simp [append_str, h, bind, Except.bind]

/-- The last step of `send_response`, when it fits. -/
theorem append_str_ok (cap : Nat) (dst src : List Char)
    (h : dst.length + src.length + 1 ≤ cap) : append_str cap dst src = .ok (dst ++ src) := by
  simp [append_str, h]

/-- Length of the wire format. -/
theorem wire_format_length (date header content_type body : List Char) (n : Nat) :
    (wire_format date header content_type body n).length
      = header.length + date.length + (fmt_d n).length + content_type.length + 65
        + (if n > 0 then (body.take n).length + 4 else 0) := by
  have h1 : "Date: ".toList.length = 6 := rfl
  have h2 : "Connection: close".toList.length = 17 := rfl
  have h3 : "Content-Length: ".toList.length = 16 := rfl
  have h4 : "Content-Type: ".toList.length = 14 := rfl
  have h5 : CRLF.length = 2 := rfl
  unfold wire_format
  split_ifs <;> simp only [List.length_append, List.length_nil, h1, h2, h3, h4, h5] <;> omega

/-- For a body that is a C string of `n` bytes (its first NUL is at offset `n`)
and a response that fits in the buffer with its NUL, `send_response` sends the
wire format of the specification. -/
theorem send_response_of_c_string (date header content_type body : List Char) (n : Nat)
    (hdate : c_str date = date)
    (hbody : 0 < n → read_str body = some (body.take n))
    (hfits : (wire_format date (c_str header) (c_str content_type) body n).length + 1
      ≤ max_response_size) :
    send_response date header content_type body n
      = .ok (wire_format date (c_str header) (c_str content_type) body n) := by
  unfold send_response
  rw [hdate]
  unfold wire_format at hfits ⊢
  simp only [List.length_append] at hfits
  dsimp only
  rw [append_str_bind _ _ _ _ (by simp only [List.length_append, List.length_nil]; omega)]
  rw [append_str_bind _ _ _ _ (by simp only [List.length_append, List.length_nil]; omega)]
  rw [append_str_bind _ _ _ _ (by simp only [List.length_append, List.length_nil]; omega)]
  rw [append_str_bind _ _ _ _ (by simp only [List.length_append, List.length_nil]; omega)]
  rw [append_str_bind _ _ _ _ (by simp only [List.length_append, List.length_nil]; omega)]
  rw [append_str_bind _ _ _ _ (by simp only [List.length_append, List.length_nil]; omega)]
  rw [append_str_bind _ _ _ _ (by simp only [List.length_append, List.length_nil]; omega)]
  by_cases hn : n > 0
  · have hn2 : (n : Int) > 0 := by omega
    simp only [hn, hn2, if_true, hbody hn] at hfits ⊢
    simp only [List.length_append] at hfits
    rw [append_str_bind _ _ _ _ (by simp only [List.length_append, List.length_nil]; omega)]
    rw [append_str_ok _ _ _ (by simp only [List.length_append, List.length_nil]; omega)]
    simp
  · have hn2 : ¬ ((n : Int) > 0) := by omega
    simp [hn, hn2]

/-- The C string read from a text without NUL that a NUL follows. -/
theorem read_str_append_nul (text rest : List Char) (h : NUL ∉ text) :
    read_str (text ++ NUL :: rest) = some text := by
  have hc : c_str (text ++ NUL :: rest) = text := by
    unfold c_str
    induction text with
    | nil => simp [List.takeWhile]
    | cons b bs ih =>
      have hb : b ≠ NUL := fun e => h (by simp [e])
      have hbs : NUL ∉ bs := fun m => h (List.mem_cons_of_mem _ m)
      have hb2 : (b != NUL) = true := by simp [hb]
      rw [List.cons_append, List.takeWhile_cons, hb2]
      simp only [if_true]
      rw [ih hbs]
  simp [read_str, hc]

/-- The status lines and the type `text/plain` hold no NUL. -/
theorem c_str_constants :
    c_str HTTP_200 = HTTP_200 ∧ c_str HTTP_404 = HTTP_404 ∧ c_str TEXT_PLAIN = TEXT_PLAIN := by
  decide

/-- The response of `get_d20` for a body of one byte and its NUL. -/
theorem send_response_one_byte (date : date_text) (b : Char) (h : b ≠ NUL) :
    send_response date.text HTTP_200 TEXT_PLAIN [b, NUL] ((1 : Nat) : Int)
      = .ok (wire_format date.text HTTP_200 TEXT_PLAIN [b, NUL] 1) := by
  have h0 := send_response_of_c_string date.text HTTP_200 TEXT_PLAIN [b, NUL] 1 date.no_nul
    (fun _ => read_str_append_nul [b] [] (by simp [Ne.symm h]))
  rw [c_str_constants.1, c_str_constants.2.2] at h0
  apply h0
  rw [wire_format_length]
  have hd := date.short
  have h1 : HTTP_200.length = 15 := rfl
  have h2 : TEXT_PLAIN.length = 10 := rfl
  have h3 : (fmt_d ((1 : Nat) : Int)).length = 1 := rfl
  have h4 : max_response_size = 262144 := rfl
  simp only [h1, h2, h3, h4, List.take, List.length_cons, List.length_nil]
  simp
  omega

/-- What `sprintf` writes into `num` for a one-digit number. -/
theorem sprintf_d_one_digit (r : Nat) (h : r < 10) :
    sprintf_d 2 (r : Int) = some [Nat.digitChar r, NUL]
      ∧ strlen [Nat.digitChar r, NUL] = some 1 ∧ Nat.digitChar r ≠ NUL := by
  interval_cases r <;> exact ⟨rfl, rfl, by decide⟩

/-- For a remainder below 10, `get_d20` sends its one digit: the 2 bytes of `num`
hold the digit and the NUL, and the response is the specified wire format. -/
theorem get_d20_one_digit {σ : Type} (date : date_text) (cache : σ) (rand : Nat)
    (h : rand % 21 < 10) :
    get_d20 date cache rand
      = .returned cache
          [.send_response HTTP_200 TEXT_PLAIN [Nat.digitChar (rand % 21), NUL] 1,
           .send (wire_format date.text HTTP_200 TEXT_PLAIN
             [Nat.digitChar (rand % 21), NUL] 1)] := by
  have e : (rand : Int) % 21 = ((rand % 21 : Nat) : Int) := by omega
  obtain ⟨hs, hl, hne⟩ := sprintf_d_one_digit (rand % 21) h
  unfold get_d20
  simp only [e, hs, hl]
  rw [send_response_one_byte date _ hne]
  rfl

/-- For a remainder from 10 to 20, `sprintf` writes 3 bytes into the 2 bytes of
`num`. -/
theorem get_d20_two_digits {σ : Type} (date : date_text) (cache : σ) (rand : Nat)
    (h : 10 ≤ rand % 21) :
    get_d20 date cache rand = .undefined .buffer_overflow [] := by
  have e : (rand : Int) % 21 = ((rand % 21 : Nat) : Int) := by omega
  have hlt : rand % 21 < 21 := Nat.mod_lt _ (by decide)
  unfold get_d20
  rw [e]
  generalize rand % 21 = r at h hlt
  interval_cases r <;> rfl

/-- C1: when `rand()` returns a multiple of 21 the body `get_d20` hands to
`send_response`, with status `HTTP/1.1 200 OK` and type `text/plain`, is the
text `0`, which is not a number between 1 and 20, and the response sent
carries it. -/
theorem get_d20_sends_zero {σ : Type} (date : date_text) (cache : σ) (k : Nat) :
    get_d20 date cache (21 * k)
      = .returned cache [.send_response HTTP_200 TEXT_PLAIN ['0', NUL] 1,
          .send (wire_format date.text HTTP_200 TEXT_PLAIN ['0', NUL] 1)] := by
  have h : (21 * k) % 21 < 10 := by omega
  have h0 : (21 * k) % 21 = 0 := by omega
  have h1 := get_d20_one_digit date cache (21 * k) h
  rw [h0] at h1
  exact h1

/-- C10: for `rand() = 10` the text `10` and its NUL take 3 bytes, one more
than the 2 bytes of `num`: `sprintf` writes past the buffer and `get_d20` has
no defined result. -/
theorem get_d20_overflows_num :
    (fmt_d ((10 : Nat) % 21)).length + 1 = 3
      ∧ sprintf_d 2 ((10 : Nat) % 21) = none
      ∧ get_d20 noon (cache_create 10 0) 10 = .undefined .buffer_overflow [] := by
  decide

/-! ## `handle_http_request` -/

/-- C2: for the request `GET`, which has a verb and no path, received into a
buffer whose next byte is NUL (as in a buffer of zeros), `path` is NULL and is
handed to `strcmp`; for the empty request `verb` is NULL and is handed to
`strcmp`. In both cases the handler does not return normally. -/
theorem handle_http_request_get_without_path {σ : Type} (w : Collab σ) (date : date_text)
    (cache : σ) (rand : Nat) (a b c : Char) (rest : List Char) :
    handle_http_request w date cache rand (a :: b :: c :: NUL :: rest) (some "GET".toList)
      = .undefined .null_pointer []
    ∧ handle_http_request w date cache rand zero_buffer (some "GET".toList)
      = .undefined .null_pointer []
    ∧ handle_http_request w date cache rand (NUL :: rest) (some [])
      = .undefined .null_pointer []
    ∧ handle_http_request w date cache rand zero_buffer (some [])
      = .undefined .null_pointer [] :=
  ⟨rfl, rfl, rfl, rfl⟩

/-- C9: with the not-found document in place, handling the request `GET`,
received into a buffer whose next byte is NUL, neither returns normally nor
ends in `exit(3)`. -/
theorem handle_http_request_get_neither_returns_nor_exits (date : date_text) (rand : Nat)
    (a b c : Char) (rest : List Char) :
    site.file_load path_404 ≠ none
      ∧ (∀ cache calls,
          handle_http_request site date (cache_create 10 0) rand (a :: b :: c :: NUL :: rest)
            (some "GET".toList) ≠ .returned cache calls)
      ∧ (∀ status calls,
          handle_http_request site date (cache_create 10 0) rand (a :: b :: c :: NUL :: rest)
            (some "GET".toList) ≠ .exited status calls) := by
  have h0 : handle_http_request site date (cache_create 10 0) rand (a :: b :: c :: NUL :: rest)
      (some "GET".toList) = .undefined .null_pointer [] := rfl
  refine ⟨by decide, ?_, ?_⟩
  · intro cache calls h
    rw [h0] at h
    cases h
  · intro status calls h
    rw [h0] at h
    cases h

/-- A request whose verb token is not `GET` is answered by nothing: no call is
made, the cache is as before and the handler returns. -/
theorem handle_http_request_other_verb {σ : Type} (w : Collab σ) (date : date_text)
    (cache : σ) (rand : Nat) (buffer bytes verb saved saved2 : List Char)
    (path : Option (List Char))
    (tok : strtok (request_after_recv buffer bytes) = .ok (some verb, saved))
    (tok2 : strtok saved = .ok (path, saved2))
    (other : verb ≠ GET) :
    handle_http_request w date cache rand buffer (some bytes) = .returned cache [] := by
  simp [handle_http_request, tok, tok2, other]

/-- What `GET` leaves of an earlier request in the buffer is read as part of the
new one: after `GET /index.html HTTP/1.1`, the 3 bytes `GET` are handled as a
request for `/index.html`. -/
theorem handle_http_request_reads_stale_bytes {σ : Type} (w : Collab σ) (date : date_text)
    (cache : σ) (rand : Nat) :
    handle_http_request w date cache rand "GET /index.html HTTP/1.1\r\n\r\n".toList
        (some "GET".toList)
      = get_file w date cache "/index.html".toList :=
  rfl

/-- When `file_load` reports the not-found document absent, `resp_404` ends the
process with status 3 and sends nothing. -/
theorem resp_404_exits_without_document {σ : Type} (w : Collab σ) (date : date_text)
    (cache : σ) (before : List Call) (absent : w.file_load path_404 = none) :
    resp_404 w date cache before = .exited 3 (before ++ [.file_load path_404])
    ∧ responses (resp_404 w date cache before).calls = responses before
    ∧ sent (resp_404 w date cache before).calls = sent before := by
  have h : resp_404 w date cache before = .exited 3 (before ++ [.file_load path_404]) := by
    simp only [resp_404, absent]
  rw [h]
  refine ⟨rfl, ?_, ?_⟩
  · simp [Result.calls, responses]
  · simp [Result.calls, sent]

/-- Without the not-found document, a request for a missing file ends the
process with status 3 after the lookup and the two loads; nothing is sent. -/
theorem handle_http_request_exits_without_document (buffer : List Char) :
    handle_http_request site_without_404 noon (cache_create 10 0) 7 buffer
        (some "GET /missing.html HTTP/1.1\r\n\r\n".toList)
      = .exited 3 [.cache_get "./serverfiles/missing.html".toList,
          .file_load "./serverfiles/missing.html".toList,
          .file_load "./serverfiles/404.html".toList] :=
  rfl

/-- The only `exit` on the way of a request is that of `resp_404`: status 3, the
not-found document absent, nothing sent. -/
theorem handle_http_request_exit_only_without_document {σ : Type} (w : Collab σ)
    (date : date_text) (cache : σ) (rand : Nat) (buffer : List Char)
    (recvd : Option (List Char)) (status : Nat) (calls : List Call)
    (h : handle_http_request w date cache rand buffer recvd = .exited status calls) :
    status = 3 ∧ w.file_load path_404 = none ∧ sent calls = [] := by
  unfold handle_http_request at h
  split at h
  · cases h
  · split at h
    · cases h
    · split at h
      · cases h
      · split at h
        · cases h
        · split_ifs at h with h1 h2
          · split at h
            · cases h
            · split_ifs at h with h4
              · unfold get_d20 at h
                dsimp only at h
                split at h
                · cases h
                · split at h
                  · cases h
                  · split at h <;> cases h
              · unfold get_file at h
                dsimp only at h
                split at h
                · split at h <;> cases h
                · split at h
                  · unfold resp_404 at h
                    dsimp only at h
                    split at h
                    · next habs =>
                      cases h
                      exact ⟨rfl, habs, rfl⟩
                    · split at h <;> cases h
                  · split at h <;> cases h

/-- A request for a file goes to `get_file` with the second token as path,
whatever the buffer held. -/
theorem handle_http_request_dispatches_file {σ : Type} (w : Collab σ) (date : date_text)
    (cache : σ) (rand : Nat) (buffer : List Char) :
    handle_http_request w date cache rand buffer
        (some "GET /index.html HTTP/1.1\r\nHost: localhost:3490\r\n\r\n".toList)
      = get_file w date cache "/index.html".toList :=
  rfl

/-- A request for `/d20` goes to `get_d20`, whatever the buffer held. -/
theorem handle_http_request_dispatches_d20 {σ : Type} (w : Collab σ) (date : date_text)
    (cache : σ) (rand : Nat) (buffer : List Char) :
    handle_http_request w date cache rand buffer
        (some "GET /d20 HTTP/1.1\r\nHost: localhost:3490\r\n\r\n".toList)
      = get_d20 date cache rand :=
  rfl

/-! ## `get_file` -/

/-- The cache store above returns from `cache_get` what the last `cache_put`
under the same key stored. -/
theorem cache_get_after_put (c : cache) (path content_type content : List Char)
    (content_length : Int) :
    (cache_get (cache_put c path content_type content content_length) path).1
      = some ⟨content_type, content_length, content⟩ := by
  unfold cache_put
  split_ifs <;> simp [cache_get]

/-- A cache store that copies `content_length` bytes meets the assumption of C6
as well. -/
theorem cache_get_after_put_copy (c : cache) (path content_type content : List Char)
    (m : Nat) :
    ∃ entry c1,
      site_copy.cache_get (site_copy.cache_put c path content_type content (m : Int)) path
        = (some entry, c1)
      ∧ entry.content_type = content_type ∧ entry.content_length = (m : Int)
      ∧ entry.content.take m = content.take m :=
  ⟨⟨content_type, m, content.take m⟩,
   (cache_get (cache_put c path content_type (content.take m) (m : Int)) path).2,
   Prod.ext (cache_get_after_put c path content_type (content.take m) m) rfl, rfl, rfl,
   by simp⟩

/-- The content root holds no NUL: read as a C string it is itself. -/
theorem c_str_SERVER_FILES : c_str SERVER_FILES = SERVER_FILES := by
  decide

/-- The path `get_file` builds is the content root followed by at most 4082
bytes of the request path. -/
theorem file_path_eq (request_path : List Char) :
    file_path request_path = SERVER_FILES ++ (c_str request_path).take 4082 := by
  unfold file_path snprintf_ss
  rw [c_str_SERVER_FILES, List.take_append_eq_append_take]
  have h1 : List.take (4096 - 1) SERVER_FILES = SERVER_FILES := by decide
  have h2 : 4096 - 1 - SERVER_FILES.length = 4082 := by decide
  rw [h1, h2]

/-- Without a `..` segment, resolving only goes down from `dir`. -/
theorem resolve_without_up (segs : List (List Char)) :
    ∀ dir, ['.', '.'] ∉ segs → ∃ more, resolve dir segs = some (more ++ dir) := by
  induction segs with
  | nil => intro dir _; exact ⟨[], rfl⟩
  | cons seg segs ih =>
    intro dir h
    have hseg : seg ≠ ['.', '.'] := fun e => h (by simp [e])
    have hrest : ['.', '.'] ∉ segs := fun m => h (List.mem_cons_of_mem _ m)
    unfold resolve
    split_ifs with h1
    · exact ih dir hrest
    · obtain ⟨more, hm⟩ := ih (seg :: dir) hrest
      exact ⟨more ++ [seg], by simp [hm]⟩

/-- C8, the claim's own example: for the request path `/../server.c` the path
`get_file` builds is `./serverfiles/../server.c`, which names `server.c` in the
directory above the content root. -/
theorem file_path_leaves_root :
    file_path "/../server.c".toList = "./serverfiles/../server.c".toList
    ∧ location (file_path "/../server.c".toList) = some ["server.c".toList]
    ∧ inside_root (file_path "/../server.c".toList) = false := by
  decide

/-- C8, as the code has it: the path `get_file` builds is the content root text
followed by the request path, cut to 4095 bytes, so it starts with the content
root; when the request path begins with `/` and the built path has no `..`
segment, the path names a location inside the content root. -/
theorem file_path_under_root (request_path : List Char) :
    file_path request_path = (SERVER_FILES ++ c_str request_path).take 4095
    ∧ (∃ rest, file_path request_path = SERVER_FILES ++ rest)
    ∧ (∀ rest, request_path = '/' :: rest →
        ['.', '.'] ∉ segments (file_path request_path) →
        inside_root (file_path request_path) = true) := by
  refine ⟨?_, ⟨_, file_path_eq request_path⟩, ?_⟩
  · unfold file_path snprintf_ss
    rw [c_str_SERVER_FILES]
  · intro rest hslash hno
    subst hslash
    have hc : c_str ('/' :: rest) = '/' :: c_str rest := by
      simp [c_str, List.takeWhile, NUL]
    have hp : file_path ('/' :: rest)
        = SERVER_FILES ++ '/' :: (c_str rest).take 4081 := by
      rw [file_path_eq, hc]
      rfl
    rw [hp] at hno ⊢
    have hs : segments (SERVER_FILES ++ '/' :: (c_str rest).take 4081)
        = ['.'] :: "serverfiles".toList :: segments ((c_str rest).take 4081) := rfl
    have hno2 : ['.', '.'] ∉ segments ((c_str rest).take 4081) := by
      intro m
      apply hno
      rw [hs]
      exact List.mem_cons_of_mem _ (List.mem_cons_of_mem _ m)
    obtain ⟨more, hm⟩ := resolve_without_up (segments ((c_str rest).take 4081))
      ["serverfiles".toList] hno2
    have hr : resolve [] (segments (SERVER_FILES ++ '/' :: (c_str rest).take 4081))
        = some (more ++ ["serverfiles".toList]) := by
      rw [hs, ← hm]
      rfl
    have hroot : location SERVER_FILES = some ["serverfiles".toList] := by decide
    have hloc : location (SERVER_FILES ++ '/' :: (c_str rest).take 4081)
        = some ("serverfiles".toList :: more.reverse) := by
      simp [location, hr]
    unfold inside_root
    rw [hroot, hloc]
    simp

/-- Instance of C8 for the request path `/index.html`. -/
theorem file_path_under_root_witness :
    ['.', '.'] ∉ segments (file_path "/index.html".toList)
    ∧ file_path "/index.html".toList = "./serverfiles/index.html".toList
    ∧ inside_root (file_path "/index.html".toList) = true :=
  ⟨by decide, by decide,
   (file_path_under_root "/index.html".toList).2.2 "index.html".toList rfl (by decide)⟩

end CWebServer
